import Mathlib

/-!
Verification of the rusty-jira ticket tracker core (src/src/main.rs, src/src/store.rs,
src/src/models/ticket.rs): value types, the ticket entity, and the ticket store with its
CRUD/status/comment operations. Rust's `u64` ticket identifiers and counter are modelled as
`Nat`: the counter only ever moves by `+= 1`, and a Rust debug build aborts on overflow
rather than ever producing a wrapped identifier, so no reachable execution observes
wrap-around. `HashMap<TicketId, Ticket>` is modelled as an association list with
HashMap semantics (lookup by key, insert replaces the binding for the key, remove drops
it); iteration order of the map is unspecified in the source, so list order below carries
no meaning and unordered comparisons are stated up to permutation. In-place mutation via
`get_mut` is modelled as re-binding the same key to the updated ticket.
-/

namespace RustyJira

/-- Status enum from src/src/models/ticket.rs: ToDo, InProgress, Blocked, Done. -/
inductive Status
  | ToDo
  | InProgress
  | Blocked
  | Done
deriving DecidableEq

/-- Title wraps a string (models module; the wrapped raw string is the Display output). -/
structure Title where
  raw : String
deriving DecidableEq

/-- Comment wraps a string, same shape as Title. -/
structure Comment where
  raw : String
deriving DecidableEq

/-- Validation errors of the value-type constructors, per the spec's error design. -/
inductive ValidationError
  | EmptyTitle
  | EmptyComment
  | InvalidStatusText
deriving DecidableEq

/-- Characters remaining after trimming leading and trailing whitespace, used for the
emptiness check of Title::new and Comment::new. -/
def trimmed (s : String) : List Char :=
  ((s.data.dropWhile Char.isWhitespace).reverse.dropWhile Char.isWhitespace).reverse

/-- Modelled from the spec: the models source file defining Title::new is not under src/
(only models/ticket.rs is). Spec 4.1: trims whitespace conceptually for the emptiness
check; fails with EmptyTitle if the trimmed string has zero length; on success stores the
original (untrimmed) string. -/
def Title.new (raw : String) : Except ValidationError Title :=
  if (trimmed raw).length = 0 then Except.error ValidationError.EmptyTitle
  else Except.ok ⟨raw⟩

/-- Modelled from the spec: the models source file defining Comment::new is not under src/.
Spec 4.1: identical contract to Title::new, failing with EmptyComment. -/
def Comment.new (raw : String) : Except ValidationError Comment :=
  if (trimmed raw).length = 0 then Except.error ValidationError.EmptyComment
  else Except.ok ⟨raw⟩

/-- Lowercasing as used by Status parsing (to_lowercase; ASCII-relevant case mapping). -/
def lowercase (s : String) : String := ⟨s.data.map Char.toLower⟩

/-- Outcome of Status parsing: a returned value, or a panic (process abort). -/
inductive ParseResult
  | ok (status : Status)
  | panicked (msg : String)
deriving DecidableEq

/-- Status parsing from src/src/main.rs (FromStr for Status): lowercases the input and
matches it; the wildcard arm of the match invokes a panic with the message below, modelled
as ParseResult.panicked; every arm that does produce a status is wrapped in Ok. -/
def Status.from_str (s : String) : ParseResult :=
  let l := lowercase s
  if l = "todo" ∨ l = "to-do" then ParseResult.ok Status.ToDo
  else if l = "inprogress" ∨ l = "in-progress" then ParseResult.ok Status.InProgress
  else if l = "blocked" then ParseResult.ok Status.Blocked
  else if l = "done" then ParseResult.ok Status.Done
  else ParseResult.panicked
    "The status you specified is not valid. Valid values: todo, inprogress, blocked and done."

/-- TicketId is u64 in the source, modelled as Nat (see the module comment). -/
abbrev TicketId := Nat

/-- Ticket aggregate from src/src/models/ticket.rs. -/
structure Ticket where
  id : TicketId
  title : Title
  description : String
  status : Status
  comments : List Comment
deriving DecidableEq

/-- TicketDraft: creation input, a validated Title plus a free-form description. -/
structure TicketDraft where
  title : Title
  description : String
deriving DecidableEq

/-- TicketPatch: optional title and optional description; an absent field means leave the
current value unchanged. -/
structure TicketPatch where
  title : Option Title
  description : Option String
deriving DecidableEq

/-- DeletedTicket wrapper (tuple struct DeletedTicket(pub Ticket)). -/
structure DeletedTicket where
  ticket : Ticket
deriving DecidableEq

/-- Association-list lookup with the search key compared against each binding's key,
modelling HashMap::get. -/
def dataLookup (k : TicketId) : List (TicketId × Ticket) → Option Ticket
  | [] => none
  | p :: ps => if p.1 = k then some p.2 else dataLookup k ps

/-- Removal of the binding for a key, modelling HashMap::remove's effect on the map. -/
def dataRemove (k : TicketId) : List (TicketId × Ticket) → List (TicketId × Ticket)
  | [] => []
  | p :: ps => if p.1 = k then dataRemove k ps else p :: dataRemove k ps

/-- Insertion modelling HashMap::insert: the key's binding is replaced. -/
def dataInsert (k : TicketId) (v : Ticket) (m : List (TicketId × Ticket)) :
    List (TicketId × Ticket) :=
  (k, v) :: dataRemove k m

/-- TicketStore from src/src/store.rs: identifier counter plus map from id to Ticket. -/
structure TicketStore where
  current_id : Nat
  data : List (TicketId × Ticket)
deriving DecidableEq

/-- TicketStore::new: counter 0, empty map. -/
def TicketStore.new : TicketStore :=
  { current_id := 0, data := [] }

/-- TicketStore::generate_id: increments the counter and returns its new value; the
mutated store is returned alongside the identifier. -/
def TicketStore.generate_id (s : TicketStore) : TicketStore × TicketId :=
  ({ current_id := s.current_id + 1, data := s.data }, s.current_id + 1)

/-- TicketStore::create: generates an id, builds a Ticket with status ToDo and no
comments from the draft, inserts it under its own id, and returns the id. -/
def TicketStore.create (s : TicketStore) (draft : TicketDraft) : TicketStore × TicketId :=
  let g := s.generate_id
  let ticket : Ticket :=
    { id := g.2, title := draft.title, description := draft.description,
      status := Status.ToDo, comments := [] }
  ({ current_id := g.1.current_id, data := dataInsert ticket.id ticket g.1.data }, g.2)

/-- TicketStore::delete: removes and returns the ticket if present (wrapped in
DeletedTicket); otherwise returns none and the store is untouched. -/
def TicketStore.delete (s : TicketStore) (ticket_id : TicketId) :
    TicketStore × Option DeletedTicket :=
  match dataLookup ticket_id s.data with
  | none => (s, none)
  | some t => ({ current_id := s.current_id, data := dataRemove ticket_id s.data }, some ⟨t⟩)

/-- TicketStore::list: the stored tickets (map values; order unspecified). -/
def TicketStore.list (s : TicketStore) : List Ticket := s.data.map Prod.snd

/-- TicketStore::get: lookup by id. -/
def TicketStore.get (s : TicketStore) (id : TicketId) : Option Ticket :=
  dataLookup id s.data

/-- Effect of applying a TicketPatch to a ticket: each present field replaces the
corresponding field, absent fields are untouched (the body of update_ticket's closure). -/
def applyPatch (t : Ticket) (patch : TicketPatch) : Ticket :=
  let t1 := match patch.title with
    | some title => { t with title := title }
    | none => t
  match patch.description with
  | some description => { t1 with description := description }
  | none => t1

/-- TicketStore::update_ticket: if the id is present, applies the patch to that ticket in
place and returns Some(()); otherwise returns none with no mutation. -/
def TicketStore.update_ticket (s : TicketStore) (id : TicketId) (patch : TicketPatch) :
    TicketStore × Option Unit :=
  match dataLookup id s.data with
  | none => (s, none)
  | some t =>
    ({ current_id := s.current_id, data := dataInsert id (applyPatch t patch) s.data },
     some ())

/-- TicketStore::update_ticket_status: unconditionally overwrites the status if the id is
present; otherwise returns none. -/
def TicketStore.update_ticket_status (s : TicketStore) (id : TicketId) (status : Status) :
    TicketStore × Option Unit :=
  match dataLookup id s.data with
  | none => (s, none)
  | some t =>
    ({ current_id := s.current_id, data := dataInsert id { t with status := status } s.data },
     some ())

/-- TicketStore::add_comment_to_ticket: pushes the comment onto the ticket's comment
vector (append at the end) if the id is present; otherwise returns none. -/
def TicketStore.add_comment_to_ticket (s : TicketStore) (id : TicketId) (comment : Comment) :
    TicketStore × Option Unit :=
  match dataLookup id s.data with
  | none => (s, none)
  | some t =>
    ({ current_id := s.current_id,
       data := dataInsert id { t with comments := t.comments ++ [comment] } s.data },
     some ())

/-- Store invariant: every key in the map is at most the counter. It holds for the empty
store and is preserved by every operation; the Rust struct's fields are private, so every
store a caller can obtain satisfies it. -/
def StoreInv (s : TicketStore) : Prop := ∀ p ∈ s.data, p.1 ≤ s.current_id

/-- Key/identifier agreement invariant: every ticket is stored under its own id field. -/
def IdInv (s : TicketStore) : Prop := ∀ p ∈ s.data, p.2.id = p.1

/-- One store operation, for stating properties over all reachable stores. -/
inductive Op
  | create (draft : TicketDraft)
  | del (id : TicketId)
  | update (id : TicketId) (patch : TicketPatch)
  | updateStatus (id : TicketId) (status : Status)
  | addComment (id : TicketId) (comment : Comment)

/-- Application of one operation to a store (discarding the returned value). -/
def applyOp (s : TicketStore) : Op → TicketStore
  | Op.create draft => (s.create draft).1
  | Op.del id => (s.delete id).1
  | Op.update id patch => (s.update_ticket id patch).1
  | Op.updateStatus id status => (s.update_ticket_status id status).1
  | Op.addComment id comment => (s.add_comment_to_ticket id comment).1

/-- Application of a sequence of operations, left to right. -/
def applyOps (s : TicketStore) (ops : List Op) : TicketStore := ops.foldl applyOp s

/-- Sequence of creates, collecting the returned identifiers in order. -/
def TicketStore.createAll (s : TicketStore) : List TicketDraft → TicketStore × List TicketId
  | [] => (s, [])
  | d :: ds =>
    let c := s.create d
    let rest := c.1.createAll ds
    (rest.1, c.2 :: rest.2)

/-- Sequence of deletes, left to right. -/
def deleteAll (s : TicketStore) (ids : List TicketId) : TicketStore :=
  ids.foldl (fun st j => (st.delete j).1) s

/-- Identifiers returned by the create operations within a sequence of operations. -/
def issuedIds (s : TicketStore) : List Op → List TicketId
  | [] => []
  | op :: ops =>
    match op with
    | Op.create d => (s.create d).2 :: issuedIds (applyOp s op) ops
    | _ => issuedIds (applyOp s op) ops

/-- Ticket produced by create for a given identifier and draft. -/
def mkTicket (id : TicketId) (d : TicketDraft) : Ticket :=
  { id := id, title := d.title, description := d.description,
    status := Status.ToDo, comments := [] }

/-- Tickets produced by a run of creates starting at a given identifier. -/
def mkTickets (start : Nat) : List TicketDraft → List Ticket
  | [] => []
  | d :: ds => mkTicket start d :: mkTickets (start + 1) ds

/-- Sample draft used in witness instantiations. -/
def sampleDraft : TicketDraft := { title := ⟨"Fix bug"⟩, description := "NPE on login" }

/-- Second sample draft used in witness instantiations. -/
def sampleDraft2 : TicketDraft := { title := ⟨"Add tests"⟩, description := "store coverage" }

/-- Sample comment used in witness instantiations. -/
def sampleComment : Comment := ⟨"Reproduced"⟩

/-- Second sample comment used in witness instantiations. -/
def sampleComment2 : Comment := ⟨"Deployed fix"⟩

/-- Sample patch with only the description present, used in witness instantiations. -/
def samplePatch : TicketPatch := { title := none, description := some "NPE on signup" }

/-- Looking up a key just removed yields nothing. -/
theorem dataLookup_dataRemove_self (k : TicketId) (m : List (TicketId × Ticket)) :
    dataLookup k (dataRemove k m) = none := by
  induction m with
  | nil => rfl
  | cons p ps ih =>
    by_cases h : p.1 = k
    · simpa [dataRemove, h] using ih
    · simpa [dataRemove, dataLookup, h] using ih

/-- Removing one key does not affect lookups of another. -/
theorem dataLookup_dataRemove_ne {j k : TicketId} (h : j ≠ k)
    (m : List (TicketId × Ticket)) :
    dataLookup j (dataRemove k m) = dataLookup j m := by
  induction m with
  | nil => rfl
  | cons p ps ih =>
    by_cases hk : p.1 = k
    · have hj : p.1 ≠ j := fun hpj => h (hpj ▸ hk ▸ rfl)
      have hkj : k ≠ j := fun e => h e.symm
      simp [dataRemove, dataLookup, hk, hj, hkj, ih]
    · by_cases hj : p.1 = j
      · simp [dataRemove, dataLookup, hk, hj, h]
      · simp [dataRemove, dataLookup, hk, hj, ih]

/-- Looking up the key just inserted yields the inserted value. -/
theorem dataLookup_dataInsert_self (k : TicketId) (v : Ticket)
    (m : List (TicketId × Ticket)) :
    dataLookup k (dataInsert k v m) = some v := by
  simp [dataInsert, dataLookup]

/-- Inserting under one key does not affect lookups of another. -/
theorem dataLookup_dataInsert_ne {j k : TicketId} (h : j ≠ k) (v : Ticket)
    (m : List (TicketId × Ticket)) :
    dataLookup j (dataInsert k v m) = dataLookup j m := by
  have hk : k ≠ j := fun hkj => h hkj.symm
  simp [dataInsert, dataLookup, hk, dataLookup_dataRemove_ne h]

/-- A successful lookup exhibits a member of the association list. -/
theorem mem_of_dataLookup_eq_some {k : TicketId} {v : Ticket}
    {m : List (TicketId × Ticket)} (h : dataLookup k m = some v) : (k, v) ∈ m := by
  induction m with
  | nil => simp [dataLookup] at h
  | cons p ps ih =>
    obtain ⟨a, b⟩ := p
    by_cases ha : a = k
    · simp [dataLookup, ha] at h
      simp [ha, h]
    · simp [dataLookup, ha] at h
      exact List.mem_cons_of_mem _ (ih h)

/-- Removing a key absent from the list leaves it unchanged. -/
theorem dataRemove_eq_self {k : TicketId} {m : List (TicketId × Ticket)}
    (h : ∀ p ∈ m, p.1 ≠ k) : dataRemove k m = m := by
  induction m with
  | nil => rfl
  | cons p ps ih =>
    have hp : p.1 ≠ k := h p (List.mem_cons_self p ps)
    simp [dataRemove, hp, ih fun q hq => h q (List.mem_cons_of_mem p hq)]

/-- Members after removal were members before. -/
theorem mem_of_mem_dataRemove {p : TicketId × Ticket} {k : TicketId}
    {m : List (TicketId × Ticket)} (h : p ∈ dataRemove k m) : p ∈ m := by
  induction m with
  | nil => simp [dataRemove] at h
  | cons q qs ih =>
    by_cases hq : q.1 = k
    · simp only [dataRemove, if_pos hq] at h
      exact List.mem_cons_of_mem _ (ih h)
    · simp only [dataRemove, if_neg hq, List.mem_cons] at h
      rcases h with h | h
      · exact h ▸ List.mem_cons_self q qs
      · exact List.mem_cons_of_mem _ (ih h)

/-- Unfolding of create: the returned id is the incremented counter. -/
theorem create_snd (s : TicketStore) (d : TicketDraft) :
    (s.create d).2 = s.current_id + 1 := rfl

/-- Unfolding of create: the counter after create. -/
theorem create_fst_current_id (s : TicketStore) (d : TicketDraft) :
    (s.create d).1.current_id = s.current_id + 1 := rfl

/-- Unfolding of create: the map after create binds the fresh id to the new ticket. -/
theorem create_fst_data (s : TicketStore) (d : TicketDraft) :
    (s.create d).1.data =
      dataInsert (s.current_id + 1) (mkTicket (s.current_id + 1) d) s.data := rfl

/-- Delete on an absent id is the identity with a none result. -/
theorem delete_of_lookup_none {s : TicketStore} {id : TicketId}
    (hv : dataLookup id s.data = none) : s.delete id = (s, none) := by
  simp [TicketStore.delete, hv]

/-- Delete on a present id removes the binding and returns the wrapped ticket. -/
theorem delete_of_lookup_some {s : TicketStore} {id : TicketId} {t : Ticket}
    (hv : dataLookup id s.data = some t) :
    s.delete id =
      ({ current_id := s.current_id, data := dataRemove id s.data }, some ⟨t⟩) := by
  simp [TicketStore.delete, hv]

/-- Update on an absent id is the identity with a none result. -/
theorem update_ticket_of_lookup_none {s : TicketStore} {id : TicketId}
    {patch : TicketPatch} (hv : dataLookup id s.data = none) :
    s.update_ticket id patch = (s, none) := by
  simp [TicketStore.update_ticket, hv]

/-- Update on a present id re-binds the id to the patched ticket. -/
theorem update_ticket_of_lookup_some {s : TicketStore} {id : TicketId} {t : Ticket}
    {patch : TicketPatch} (hv : dataLookup id s.data = some t) :
    s.update_ticket id patch =
      ({ current_id := s.current_id, data := dataInsert id (applyPatch t patch) s.data },
       some ()) := by
  simp [TicketStore.update_ticket, hv]

/-- Status update on an absent id is the identity with a none result. -/
theorem update_ticket_status_of_lookup_none {s : TicketStore} {id : TicketId}
    {status : Status} (hv : dataLookup id s.data = none) :
    s.update_ticket_status id status = (s, none) := by
  simp [TicketStore.update_ticket_status, hv]

/-- Status update on a present id re-binds the id to the re-statused ticket. -/
theorem update_ticket_status_of_lookup_some {s : TicketStore} {id : TicketId} {t : Ticket}
    {status : Status} (hv : dataLookup id s.data = some t) :
    s.update_ticket_status id status =
      ({ current_id := s.current_id,
         data := dataInsert id { t with status := status } s.data }, some ()) := by
  simp [TicketStore.update_ticket_status, hv]

/-- Comment append on an absent id is the identity with a none result. -/
theorem add_comment_of_lookup_none {s : TicketStore} {id : TicketId} {c : Comment}
    (hv : dataLookup id s.data = none) :
    s.add_comment_to_ticket id c = (s, none) := by
  simp [TicketStore.add_comment_to_ticket, hv]

/-- Comment append on a present id re-binds the id to the extended ticket. -/
theorem add_comment_of_lookup_some {s : TicketStore} {id : TicketId} {t : Ticket}
    {c : Comment} (hv : dataLookup id s.data = some t) :
    s.add_comment_to_ticket id c =
      ({ current_id := s.current_id,
         data := dataInsert id { t with comments := t.comments ++ [c] } s.data },
       some ()) := by
  simp [TicketStore.add_comment_to_ticket, hv]

/-- Delete never changes the identifier counter. -/
theorem delete_fst_current_id (s : TicketStore) (id : TicketId) :
    (s.delete id).1.current_id = s.current_id := by
  cases hv : dataLookup id s.data with
  | none => rw [delete_of_lookup_none hv]
  | some t => rw [delete_of_lookup_some hv]

/-- A sequence of deletes never changes the identifier counter. -/
theorem deleteAll_current_id (s : TicketStore) (ids : List TicketId) :
    (deleteAll s ids).current_id = s.current_id := by
  induction ids generalizing s with
  | nil => rfl
  | cons j js ih =>
    calc (deleteAll s (j :: js)).current_id
        = (deleteAll (s.delete j).1 js).current_id := rfl
      _ = (s.delete j).1.current_id := ih _
      _ = s.current_id := delete_fst_current_id s j

/-- Applying the patch replaces exactly the present fields. -/
theorem applyPatch_eq (t : Ticket) (patch : TicketPatch) :
    applyPatch t patch =
      { t with title := patch.title.getD t.title,
               description := patch.description.getD t.description } := by
  obtain ⟨pt, pd⟩ := patch
  cases pt <;> cases pd <;> rfl

/-- The patched ticket keeps its identifier. -/
theorem applyPatch_id (t : Ticket) (patch : TicketPatch) :
    (applyPatch t patch).id = t.id := by
  rw [applyPatch_eq]

/-- Every operation leaves the counter unchanged or increments it. -/
theorem current_id_le_applyOp (s : TicketStore) (op : Op) :
    s.current_id ≤ (applyOp s op).current_id := by
  cases op with
  | create d =>
    rw [show applyOp s (Op.create d) = (s.create d).1 from rfl, create_fst_current_id]
    exact Nat.le_succ _
  | del id =>
    rw [show applyOp s (Op.del id) = (s.delete id).1 from rfl, delete_fst_current_id]
  | update id patch =>
    cases hv : dataLookup id s.data with
    | none =>
      rw [show applyOp s (Op.update id patch) = (s.update_ticket id patch).1 from rfl,
        update_ticket_of_lookup_none hv]
    | some t =>
      rw [show applyOp s (Op.update id patch) = (s.update_ticket id patch).1 from rfl,
        update_ticket_of_lookup_some hv]
  | updateStatus id status =>
    cases hv : dataLookup id s.data with
    | none =>
      rw [show applyOp s (Op.updateStatus id status) = (s.update_ticket_status id status).1
          from rfl, update_ticket_status_of_lookup_none hv]
    | some t =>
      rw [show applyOp s (Op.updateStatus id status) = (s.update_ticket_status id status).1
          from rfl, update_ticket_status_of_lookup_some hv]
  | addComment id c =>
    cases hv : dataLookup id s.data with
    | none =>
      rw [show applyOp s (Op.addComment id c) = (s.add_comment_to_ticket id c).1 from rfl,
        add_comment_of_lookup_none hv]
    | some t =>
      rw [show applyOp s (Op.addComment id c) = (s.add_comment_to_ticket id c).1 from rfl,
        add_comment_of_lookup_some hv]

/-- Unfolding of applyOps on a cons. -/
theorem applyOps_cons (s : TicketStore) (op : Op) (ops : List Op) :
    applyOps s (op :: ops) = applyOps (applyOp s op) ops := rfl

/-- The counter never decreases along any sequence of operations. -/
theorem current_id_le_applyOps (s : TicketStore) (ops : List Op) :
    s.current_id ≤ (applyOps s ops).current_id := by
  induction ops generalizing s with
  | nil => exact le_rfl
  | cons op ops ih =>
    rw [applyOps_cons]
    exact le_trans (current_id_le_applyOp s op) (ih _)

/-- Every identifier issued by a create along a run is at most the final counter. -/
theorem issuedIds_le (s : TicketStore) (ops : List Op) (i : TicketId)
    (h : i ∈ issuedIds s ops) : i ≤ (applyOps s ops).current_id := by
  induction ops generalizing s with
  | nil => simp [issuedIds] at h
  | cons op ops ih =>
    rw [applyOps_cons]
    cases op with
    | create d =>
      rcases List.mem_cons.mp h with hh | hh
      · subst hh
        have h1 : (s.create d).2 = (applyOp s (Op.create d)).current_id := rfl
        rw [h1]
        exact current_id_le_applyOps _ ops
      · exact ih _ hh
    | del id => exact ih _ h
    | update id patch => exact ih _ h
    | updateStatus id status => exact ih _ h
    | addComment id c => exact ih _ h

/-- The empty store satisfies the counter invariant. -/
theorem storeInv_new : StoreInv TicketStore.new := by
  intro p hp
  simp [TicketStore.new] at hp

/-- The empty store satisfies the key/identifier agreement invariant. -/
theorem idInv_new : IdInv TicketStore.new := by
  intro p hp
  simp [TicketStore.new] at hp

/-- Create preserves the counter invariant. -/
theorem storeInv_create {s : TicketStore} (d : TicketDraft) (h : StoreInv s) :
    StoreInv (s.create d).1 := by
  intro p hp
  rw [create_fst_current_id]
  rw [create_fst_data] at hp
  rcases List.mem_cons.mp hp with hp | hp
  · subst hp; exact le_rfl
  · exact le_trans (h p (mem_of_mem_dataRemove hp)) (Nat.le_succ _)

/-- Under the counter invariant, the id create is about to issue is not yet in the map. -/
theorem get_fresh_eq_none {s : TicketStore} (h : StoreInv s) :
    s.get (s.current_id + 1) = none := by
  cases hv : s.get (s.current_id + 1) with
  | none => rfl
  | some t =>
    have h1 := h _ (mem_of_dataLookup_eq_some hv)
    have h2 : s.current_id + 1 ≤ s.current_id := h1
    omega

/-- Ids returned by a run of creates form a contiguous strictly increasing range. -/
theorem createAll_snd (s : TicketStore) (ds : List TicketDraft) :
    (s.createAll ds).2 = List.range' (s.current_id + 1) ds.length := by
  induction ds generalizing s with
  | nil => rfl
  | cons d ds ih =>
    have h0 : (s.createAll (d :: ds)).2 = (s.create d).2 :: ((s.create d).1.createAll ds).2 :=
      rfl
    rw [h0, ih, create_snd, create_fst_current_id, List.length_cons, List.range'_succ]

/-- Length of the expected ticket run. -/
theorem mkTickets_length (start : Nat) (ds : List TicketDraft) :
    (mkTickets start ds).length = ds.length := by
  induction ds generalizing start with
  | nil => rfl
  | cons d ds ih => simp [mkTickets, ih]

/-- Under the counter invariant a run of creates conses the expected tickets, so the
resulting listing is the expected run joined with the prior listing, up to permutation. -/
theorem createAll_list_perm (s : TicketStore) (ds : List TicketDraft) (h : StoreInv s) :
    ((s.createAll ds).1.list).Perm (mkTickets (s.current_id + 1) ds ++ s.list) := by
  induction ds generalizing s with
  | nil => simp [TicketStore.createAll, mkTickets]
  | cons d ds ih =>
    have hfresh : ∀ p ∈ s.data, p.1 ≠ s.current_id + 1 := by
      intro p hp heq
      have h1 : p.1 ≤ s.current_id := h p hp
      rw [heq] at h1
      exact Nat.not_succ_le_self _ h1
    have hdata : (s.create d).1.data =
        (s.current_id + 1, mkTicket (s.current_id + 1) d) :: s.data := by
      rw [create_fst_data]
      simp [dataInsert, dataRemove_eq_self hfresh]
    have hlist : (s.create d).1.list = mkTicket (s.current_id + 1) d :: s.list := by
      rw [TicketStore.list, hdata]
      rfl
    have h1 := ih (s.create d).1 (storeInv_create d h)
    rw [create_fst_current_id, hlist] at h1
    have h2 : (s.createAll (d :: ds)).1.list = ((s.create d).1.createAll ds).1.list := rfl
    rw [h2]
    refine h1.trans ?_
    have h3 : mkTickets (s.current_id + 1) (d :: ds) ++ s.list =
        mkTicket (s.current_id + 1) d :: (mkTickets (s.current_id + 1 + 1) ds ++ s.list) :=
      rfl
    rw [h3]
    exact List.perm_middle

/-- Every operation preserves the key/identifier agreement invariant. -/
theorem idInv_applyOp {s : TicketStore} (h : IdInv s) (op : Op) : IdInv (applyOp s op) := by
  cases op with
  | create d =>
    intro p hp
    rw [show applyOp s (Op.create d) = (s.create d).1 from rfl, create_fst_data] at hp
    rcases List.mem_cons.mp hp with hp | hp
    · subst hp; rfl
    · exact h p (mem_of_mem_dataRemove hp)
  | del id =>
    intro p hp
    rw [show applyOp s (Op.del id) = (s.delete id).1 from rfl] at hp
    cases hv : dataLookup id s.data with
    | none =>
      rw [delete_of_lookup_none hv] at hp
      exact h p hp
    | some t =>
      rw [delete_of_lookup_some hv] at hp
      exact h p (mem_of_mem_dataRemove hp)
  | update id patch =>
    intro p hp
    rw [show applyOp s (Op.update id patch) = (s.update_ticket id patch).1 from rfl] at hp
    cases hv : dataLookup id s.data with
    | none =>
      rw [update_ticket_of_lookup_none hv] at hp
      exact h p hp
    | some t =>
      rw [update_ticket_of_lookup_some hv] at hp
      rcases List.mem_cons.mp hp with hp | hp
      · subst hp
        have ht : t.id = id := h (id, t) (mem_of_dataLookup_eq_some hv)
        calc (applyPatch t patch).id = t.id := applyPatch_id t patch
          _ = id := ht
      · exact h p (mem_of_mem_dataRemove hp)
  | updateStatus id status =>
    intro p hp
    rw [show applyOp s (Op.updateStatus id status) = (s.update_ticket_status id status).1
        from rfl] at hp
    cases hv : dataLookup id s.data with
    | none =>
      rw [update_ticket_status_of_lookup_none hv] at hp
      exact h p hp
    | some t =>
      rw [update_ticket_status_of_lookup_some hv] at hp
      rcases List.mem_cons.mp hp with hp | hp
      · subst hp
        exact h (id, t) (mem_of_dataLookup_eq_some hv)
      · exact h p (mem_of_mem_dataRemove hp)
  | addComment id c =>
    intro p hp
    rw [show applyOp s (Op.addComment id c) = (s.add_comment_to_ticket id c).1
        from rfl] at hp
    cases hv : dataLookup id s.data with
    | none =>
      rw [add_comment_of_lookup_none hv] at hp
      exact h p hp
    | some t =>
      rw [add_comment_of_lookup_some hv] at hp
      rcases List.mem_cons.mp hp with hp | hp
      · subst hp
        exact h (id, t) (mem_of_dataLookup_eq_some hv)
      · exact h p (mem_of_mem_dataRemove hp)

/-- Any sequence of operations preserves the key/identifier agreement invariant. -/
theorem idInv_applyOps {s : TicketStore} (h : IdInv s) (ops : List Op) :
    IdInv (applyOps s ops) := by
  induction ops generalizing s with
  | nil => exact h
  | cons op ops ih =>
    rw [applyOps_cons]
    exact ih (idInv_applyOp h op)

/-- C1: status parsing maps each listed string (case-insensitively) to its Status value,
but on any other text the code panics (a process abort) in the wildcard arm of
Status::from_str instead of returning the recoverable ValidationError InvalidStatusText
that the spec requires; at the failing input "cancelled" the parse panics. -/
theorem from_str_panics_on_invalid_text :
    Status.from_str "cancelled" =
      ParseResult.panicked
        "The status you specified is not valid. Valid values: todo, inprogress, blocked and done." ∧
    Status.from_str "todo" = ParseResult.ok Status.ToDo ∧
    Status.from_str "To-Do" = ParseResult.ok Status.ToDo ∧
    Status.from_str "InProgress" = ParseResult.ok Status.InProgress ∧
    Status.from_str "in-progress" = ParseResult.ok Status.InProgress ∧
    Status.from_str "BLOCKED" = ParseResult.ok Status.Blocked ∧
    Status.from_str "done" = ParseResult.ok Status.Done := by
  decide

/-- C2: for every store satisfying the counter invariant (which every constructible store
does, the struct's fields being private) and every draft, create returns a fresh
identifier, and get at that identifier returns a ticket with the draft's title and
description, status ToDo, and no comments. -/
theorem create_then_get (s : TicketStore) (d : TicketDraft) (h : StoreInv s) :
    s.get (s.create d).2 = none ∧
    (s.create d).1.get (s.create d).2 =
      some { id := (s.create d).2, title := d.title, description := d.description,
             status := Status.ToDo, comments := [] } := by
  constructor
  · exact get_fresh_eq_none h
  · show dataLookup (s.current_id + 1) (s.create d).1.data = _
    rw [create_fst_data]
    exact dataLookup_dataInsert_self _ _ _

/-- Witness for create_then_get: the empty store and a concrete draft. -/
theorem create_then_get_witness :
    StoreInv TicketStore.new ∧
    TicketStore.new.get (TicketStore.new.create sampleDraft).2 = none ∧
    (TicketStore.new.create sampleDraft).1.get (TicketStore.new.create sampleDraft).2 =
      some { id := (TicketStore.new.create sampleDraft).2, title := sampleDraft.title,
             description := sampleDraft.description, status := Status.ToDo,
             comments := [] } :=
  ⟨storeInv_new,
   (create_then_get TicketStore.new sampleDraft storeInv_new).1,
   (create_then_get TicketStore.new sampleDraft storeInv_new).2⟩

/-- C3: deleting a present id returns exactly the prior record, get at that id afterwards
returns nothing and every other id is unaffected; deleting an absent id returns nothing
and leaves the store (map and counter) literally unchanged. -/
theorem delete_present_and_absent (s : TicketStore) (id : TicketId) :
    (∀ t, s.get id = some t →
      (s.delete id).2 = some ⟨t⟩ ∧
      (s.delete id).1.get id = none ∧
      ∀ j, j ≠ id → (s.delete id).1.get j = s.get j) ∧
    (s.get id = none → s.delete id = (s, none)) := by
  constructor
  · intro t ht
    have hv : dataLookup id s.data = some t := ht
    rw [delete_of_lookup_some hv]
    refine ⟨rfl, dataLookup_dataRemove_self id s.data, ?_⟩
    intro j hj
    exact dataLookup_dataRemove_ne hj s.data
  · intro h
    exact delete_of_lookup_none h

/-- Witness for delete_present_and_absent: a store holding one concrete ticket. -/
theorem delete_present_and_absent_witness :
    (TicketStore.new.create sampleDraft).1.get 1 = some (mkTicket 1 sampleDraft) ∧
    ((TicketStore.new.create sampleDraft).1.delete 1).2 = some ⟨mkTicket 1 sampleDraft⟩ ∧
    ((TicketStore.new.create sampleDraft).1.delete 1).1.get 1 = none :=
  ⟨by decide,
   ((delete_present_and_absent (TicketStore.new.create sampleDraft).1 1).1
      (mkTicket 1 sampleDraft) (by decide)).1,
   (((delete_present_and_absent (TicketStore.new.create sampleDraft).1 1).1
      (mkTicket 1 sampleDraft) (by decide)).2).1⟩

/-- C4: on a present id, update_ticket replaces exactly the fields the patch makes
present, leaves absent fields (and id, status, comments) exactly as they were — so a
both-fields-unset patch changes nothing — returns the success marker, and leaves every
other id unaffected; on a missing id it returns nothing and performs no mutation. -/
theorem update_ticket_patch_semantics (s : TicketStore) (id : TicketId) (p : TicketPatch) :
    (s.get id = none → s.update_ticket id p = (s, none)) ∧
    ∀ t, s.get id = some t →
      (s.update_ticket id p).2 = some () ∧
      (s.update_ticket id p).1.get id =
        some { t with title := p.title.getD t.title,
                      description := p.description.getD t.description } ∧
      ∀ j, j ≠ id → (s.update_ticket id p).1.get j = s.get j := by
  constructor
  · intro h
    exact update_ticket_of_lookup_none h
  · intro t ht
    have hv : dataLookup id s.data = some t := ht
    rw [update_ticket_of_lookup_some hv]
    refine ⟨rfl, ?_, ?_⟩
    · show dataLookup id (dataInsert id (applyPatch t p) s.data) = _
      rw [dataLookup_dataInsert_self, applyPatch_eq]
    · intro j hj
      exact dataLookup_dataInsert_ne hj _ s.data

/-- Witness for update_ticket_patch_semantics: a description-only patch on a concrete
ticket leaves the title unchanged. -/
theorem update_ticket_patch_semantics_witness :
    (TicketStore.new.create sampleDraft).1.get 1 = some (mkTicket 1 sampleDraft) ∧
    ((TicketStore.new.create sampleDraft).1.update_ticket 1 samplePatch).1.get 1 =
      some { mkTicket 1 sampleDraft with
             title := samplePatch.title.getD (mkTicket 1 sampleDraft).title,
             description :=
               samplePatch.description.getD (mkTicket 1 sampleDraft).description } :=
  ⟨by decide,
   (((update_ticket_patch_semantics (TicketStore.new.create sampleDraft).1 1
       samplePatch).2 (mkTicket 1 sampleDraft) (by decide)).2).1⟩

/-- C5 counterexample: the one-space string is non-empty, yet Title::new fails on it with
EmptyTitle (it is empty after trimming), refuting the claim that Title::new succeeds on
all non-empty strings. -/
theorem title_new_fails_on_nonempty_whitespace :
    (" " : String) ≠ "" ∧ Title.new " " = Except.error ValidationError.EmptyTitle :=
  ⟨by decide, by rfl⟩

/-- C5 (amended): for all strings non-empty after trimming whitespace, Title::new
succeeds and round-trips, storing the original untrimmed string; for all strings empty
after trimming it fails with EmptyTitle; Comment::new obeys the same law with
EmptyComment. -/
theorem title_comment_new_spec (s : String) :
    ((trimmed s).length ≠ 0 →
      Title.new s = Except.ok ⟨s⟩ ∧ Comment.new s = Except.ok ⟨s⟩) ∧
    ((trimmed s).length = 0 →
      Title.new s = Except.error ValidationError.EmptyTitle ∧
      Comment.new s = Except.error ValidationError.EmptyComment) := by
  constructor
  · intro h
    simp [Title.new, Comment.new, h]
  · intro h
    simp [Title.new, Comment.new, h]

/-- Witness for title_comment_new_spec: an untrimmed concrete string round-trips. -/
theorem title_comment_new_spec_witness :
    (trimmed " Fix bug ").length ≠ 0 ∧ Title.new " Fix bug " = Except.ok ⟨" Fix bug "⟩ :=
  ⟨by decide, ((title_comment_new_spec " Fix bug ").1 (by decide)).1⟩

/-- C6: on a present id, add_comment_to_ticket appends the comment at the end of the
ticket's comment sequence (growing it by one, prior comments and order preserved) and
returns the success marker; on a missing id it returns nothing. -/
theorem add_comment_appends (s : TicketStore) (id : TicketId) (c : Comment) :
    (s.get id = none → s.add_comment_to_ticket id c = (s, none)) ∧
    ∀ t, s.get id = some t →
      (s.add_comment_to_ticket id c).2 = some () ∧
      (s.add_comment_to_ticket id c).1.get id =
        some { t with comments := t.comments ++ [c] } := by
  constructor
  · intro h
    exact add_comment_of_lookup_none h
  · intro t ht
    have hv : dataLookup id s.data = some t := ht
    rw [add_comment_of_lookup_some hv]
    exact ⟨rfl, dataLookup_dataInsert_self _ _ _⟩

/-- Witness for add_comment_appends: a second comment lands after the first. -/
theorem add_comment_appends_witness :
    ((TicketStore.new.create sampleDraft).1.add_comment_to_ticket 1
        sampleComment).1.get 1 =
      some { mkTicket 1 sampleDraft with comments := [sampleComment] } ∧
    ((((TicketStore.new.create sampleDraft).1.add_comment_to_ticket 1
        sampleComment).1).add_comment_to_ticket 1 sampleComment2).1.get 1 =
      some { mkTicket 1 sampleDraft with comments := [sampleComment, sampleComment2] } :=
  ⟨by decide,
   ((add_comment_appends
       ((TicketStore.new.create sampleDraft).1.add_comment_to_ticket 1 sampleComment).1
       1 sampleComment2).2
     { mkTicket 1 sampleDraft with comments := [sampleComment] } (by decide)).2⟩

/-- C7: the counter starts at 0 and is pre-incremented on each generation, so the first
create on a fresh store returns identifier 1, and the identifiers returned by any
sequence of creates on a fresh store are strictly increasing and pairwise distinct. -/
theorem counter_and_created_ids :
    TicketStore.new.current_id = 0 ∧
    (∀ d : TicketDraft, (TicketStore.new.create d).2 = 1) ∧
    ∀ ds : List TicketDraft,
      ((TicketStore.new.createAll ds).2).Pairwise (· < ·) ∧
      ((TicketStore.new.createAll ds).2).Nodup := by
  refine ⟨rfl, fun d => rfl, fun ds => ?_⟩
  rw [createAll_snd]
  constructor
  · exact List.pairwise_lt_range' _ _
  · exact List.nodup_range' _ _

/-- C8: listing an empty store yields the empty sequence, and after creating the drafts
of ds on a fresh store the listing has exactly ds.length tickets and equals, as an
unordered collection, the run of tickets the creates produced. -/
theorem list_empty_and_after_creates (ds : List TicketDraft) :
    TicketStore.new.list = [] ∧
    ((TicketStore.new.createAll ds).1.list).length = ds.length ∧
    ((TicketStore.new.createAll ds).1.list).Perm (mkTickets 1 ds) := by
  have hperm := createAll_list_perm TicketStore.new ds storeInv_new
  have hnil : TicketStore.new.list = [] := rfl
  rw [hnil, List.append_nil] at hperm
  have hperm1 : ((TicketStore.new.createAll ds).1.list).Perm (mkTickets 1 ds) := hperm
  refine ⟨rfl, ?_, hperm1⟩
  rw [hperm1.length_eq, mkTickets_length]

/-- C9: in every store reachable from the empty store by create, delete, update_ticket,
update_ticket_status and add_comment_to_ticket operations, a successful get returns a
ticket whose id field equals the queried identifier. -/
theorem get_returns_ticket_with_queried_id (ops : List Op) (id : TicketId) (t : Ticket)
    (h : (applyOps TicketStore.new ops).get id = some t) : t.id = id := by
  have hv : dataLookup id (applyOps TicketStore.new ops).data = some t := h
  exact idInv_applyOps idInv_new ops (id, t) (mem_of_dataLookup_eq_some hv)

/-- Witness for get_returns_ticket_with_queried_id: one create, queried back. -/
theorem get_returns_ticket_with_queried_id_witness :
    (applyOps TicketStore.new [Op.create sampleDraft]).get 1 =
      some (mkTicket 1 sampleDraft) ∧
    (mkTicket 1 sampleDraft).id = 1 :=
  ⟨by decide,
   get_returns_ticket_with_queried_id [Op.create sampleDraft] 1 (mkTicket 1 sampleDraft)
     (by decide)⟩

/-- C10: delete leaves the identifier counter unchanged for every store and id, and a
create performed after any reachable history followed by any sequence of deletes returns
an identifier strictly greater than every identifier previously issued by a create — so
identifiers of deleted tickets are never reused. -/
theorem delete_keeps_counter_no_id_reuse :
    (∀ (s : TicketStore) (id : TicketId), (s.delete id).1.current_id = s.current_id) ∧
    ∀ (ops : List Op) (ids : List TicketId) (d : TicketDraft) (i : TicketId),
      i ∈ issuedIds TicketStore.new ops →
      i < ((deleteAll (applyOps TicketStore.new ops) ids).create d).2 := by
  refine ⟨delete_fst_current_id, ?_⟩
  intro ops ids d i hi
  have h1 : i ≤ (applyOps TicketStore.new ops).current_id :=
    issuedIds_le TicketStore.new ops i hi
  have h2 : ((deleteAll (applyOps TicketStore.new ops) ids).create d).2 =
      (applyOps TicketStore.new ops).current_id + 1 := by
    rw [create_snd, deleteAll_current_id]
  rw [h2]
  exact Nat.lt_succ_of_le h1

/-- Witness for delete_keeps_counter_no_id_reuse: id 1 is issued, deleted, and the next
create returns 2. -/
theorem delete_keeps_counter_no_id_reuse_witness :
    1 ∈ issuedIds TicketStore.new [Op.create sampleDraft] ∧
    1 < ((deleteAll (applyOps TicketStore.new [Op.create sampleDraft]) [1]).create
          sampleDraft2).2 :=
  ⟨by decide,
   delete_keeps_counter_no_id_reuse.2 [Op.create sampleDraft] [1] sampleDraft2 1
     (by decide)⟩

end RustyJira
